import Mathlib

/-!
Verification of the ActivityPub blog server (`src/main.rs`).

The development shallowly embeds the program's data model, its object
translators (`Post::into_json`, `Author::into_json`) and its three HTTP
query handlers (`http_get_user`, `http_get_outbox`, `webfinger`) as
executable Lean definitions, and proves the specified properties about
them.  Machine integers are modelled as `Int`/`Nat` (the values involved
— timestamps and list lengths — are far below any overflow boundary),
fallible Rust code returning `Result<T, Error>` is modelled as
`Except Error T`, and `url::Url` values are modelled by their serialized
strings.
-/

/-- Models `url::Url` by its serialized string.  The URI strings this
program constructs are absolute `http(s)` URIs built from the configured
hostname, so `Url::parse` succeeds on them and round-trips them
unchanged; it is therefore modelled as the identity (see `Url.parse`). -/
abbrev Url := String

/-- Models `chrono::DateTime<chrono::Utc>`: a number of whole seconds
since the Unix epoch together with a subsecond nanosecond count.
(chrono's leap-second encoding, `nanos ≥ 10^9`, is not modelled; the
program only ever stores `Utc::now()`.) -/
structure DateTimeUtc where
  secs : Int
  nanos : Nat
deriving DecidableEq

/-- Models `DateTime::timestamp()`: the number of non-leap seconds since
the Unix epoch, i.e. the timestamp truncated to whole seconds (the
nanosecond part is discarded). -/
def DateTimeUtc.timestamp (dt : DateTimeUtc) : Int :=
  dt.secs

/-- The `Author` struct of `src/main.rs`. -/
structure Author where
  name : String
  display_name : String
  followers : List Url
deriving DecidableEq

/-- The `Post` struct of `src/main.rs`. -/
structure Post where
  author : String
  published : DateTimeUtc
  title : String
  content : String
deriving DecidableEq

/-- The `Blog` struct of `src/main.rs` (the app data carried by
`Data<Blog>`; the handlers reach its fields through `Deref`). -/
structure Blog where
  hostname : String
  authors : List Author
  posts : List Post
deriving DecidableEq

/-- The `Error` enum of `src/main.rs`.  The blanket
`impl<T: Into<anyhow::Error>> From<T> for Error` converts every
underlying failure into `Error.Internal` carrying the error's textual
description, which is what the `?` operator applies. -/
inductive Error where
  | Internal (msg : String)
  | NotFound
deriving DecidableEq

/-- Models `impl IntoResponse for Error`: the HTTP status code of the
response produced for each error variant
(`StatusCode::INTERNAL_SERVER_ERROR` = 500, `StatusCode::NOT_FOUND` = 404). -/
def Error.status : Error → Nat
  | .Internal _ => 500
  | .NotFound => 404

/-- Models `Url::parse` on the URI strings this program constructs: it
succeeds and returns the string unchanged (the `url` crate's
normalizations do not alter these already-normalized absolute URIs). -/
def Url.parse (s : String) : Except Error Url :=
  Except.ok s

/-- Models `activitypub_federation::kinds::public()`: the ActivityStreams
public-addressing sentinel URI. -/
def publicUrl : Url :=
  "https://www.w3.org/ns/activitystreams#Public"

/-- The `NoteType` marker of the ActivityStreams `Note` object type. -/
inductive NoteType where
  | Note
deriving DecidableEq

/-- The `CreateType` marker of the ActivityStreams `Create` activity type. -/
inductive CreateType where
  | Create
deriving DecidableEq

/-- The `PersonType` marker of the ActivityStreams `Person` actor type. -/
inductive PersonType where
  | Person
deriving DecidableEq

/-- The `OrderedCollectionType` marker of the ActivityStreams
`OrderedCollection` type. -/
inductive OrderedCollectionType where
  | OrderedCollection
deriving DecidableEq

/-- The `Note` struct of `src/main.rs`. -/
structure Note where
  kind : NoteType
  id : Url
  published : String
  url : Url
  to_ : List Url
  cc : List Url
  content : String
deriving DecidableEq

/-- The `Create` struct of `src/main.rs`. -/
structure Create where
  kind : CreateType
  id : Url
  published : String
  to_ : List Url
  cc : List Url
  object : Note
deriving DecidableEq

/-- The `Person` struct of `src/main.rs`. -/
structure Person where
  id : Url
  kind : PersonType
  preferred_username : String
  name : String
  inbox : Url
  outbox : Url
  following : Url
  followers : Url
deriving DecidableEq

/-- The `OrderedCollection<T>` struct of `src/main.rs` (`total_items`
is a `usize`, modelled as `Nat`). -/
structure OrderedCollection (α : Type) where
  kind : OrderedCollectionType
  total_items : Nat
  ordered_items : List α
deriving DecidableEq

/-- Proleptic-Gregorian civil date `(year, month, day)` of a day count
relative to 1970-01-01, by the standard civil-from-days algorithm.  This
is the calendar chrono's `DateTime<Utc>` formatting is documented to
implement. -/
def civilFromDays (days : Int) : Int × Nat × Nat :=
  let z := days + 719468
  let era : Int := z / 146097
  let doe : Nat := (z % 146097).toNat
  let yoe : Nat := (doe - doe / 1460 + doe / 36524 - doe / 146096) / 365
  let doy : Nat := doe - (365 * yoe + yoe / 4 - yoe / 100)
  let mp : Nat := (5 * doy + 2) / 153
  let d : Nat := doy - (153 * mp + 2) / 5 + 1
  let m : Nat := if mp < 10 then mp + 3 else mp - 9
  let y : Int := (yoe : Int) + era * 400 + (if m ≤ 2 then 1 else 0)
  (y, m, d)

/-- A decimal digit character (`0 ≤ n ≤ 9` in every use below). -/
def digit (n : Nat) : Char :=
  Nat.digitChar n

/-- A two-digit zero-padded decimal string, as chrono's `%m`, `%d`,
`%H`, `%M`, `%S` specifiers print their (always two-digit) field values. -/
def two (n : Nat) : String :=
  ⟨[digit (n / 10 % 10), digit (n % 10)]⟩

/-- A four-digit zero-padded decimal string, as chrono's `%Y` specifier
prints years `0..=9999` (outside that range chrono prepends an explicit
sign, which this model does not cover — see `formatTimestamp`). -/
def four (n : Nat) : String :=
  ⟨[digit (n / 1000 % 10), digit (n / 100 % 10), digit (n / 10 % 10), digit (n % 10)]⟩

/-- Models `self.published.format("%Y-%m-%dT%H:%M:%SZ").to_string()` of
`src/main.rs`: the UTC civil decomposition of the timestamp printed with
zero-padded fields and the literal separators `-`, `T`, `:`, `Z`.  The
pattern has no subsecond specifier, so only `secs` is read.  Faithful to
chrono for timestamps whose year lies in `0..=9999` (chrono prints a
sign outside that range) and outside leap seconds. -/
def formatTimestamp (dt : DateTimeUtc) : String :=
  let days := dt.secs / 86400
  let sod : Nat := (dt.secs % 86400).toNat
  let c := civilFromDays days
  four c.1.toNat ++ "-" ++ two c.2.1 ++ "-" ++ two c.2.2 ++ "T" ++
    two (sod / 3600) ++ ":" ++ two (sod % 3600 / 60) ++ ":" ++ two (sod % 60) ++ "Z"

/-- The URL slug of a post title as computed inline in `Post::into_json`:
`self.title.to_lowercase().replace(' ', "-")` (ASCII case mapping; the
program's titles are ASCII). -/
def slugify (title : String) : String :=
  title.toLower.map (fun c => if c = ' ' then '-' else c)

/-- The `Post::into_json` method of `src/main.rs`, translating a post
into a `Create` activity wrapping a `Note`. -/
def Post.into_json (self : Post) (data : Blog) : Except Error Create := do
  let published := formatTimestamp self.published
  let u ← Url.parse (data.hostname ++ "/users/" ++ self.author ++ "/followers")
  let toList := [u]
  let cc := [publicUrl]
  let createId ← Url.parse (data.hostname ++ "/users/" ++ self.author ++ "/statuses/" ++
    toString self.published.timestamp ++ "/activity")
  let noteId ← Url.parse (data.hostname ++ "/users/" ++ self.author ++ "/statuses/" ++
    toString self.published.timestamp)
  let noteUrl ← Url.parse (data.hostname ++ "/blog/" ++ slugify self.title)
  Except.ok
    { kind := CreateType.Create
      id := createId
      published := published
      to_ := toList
      cc := cc
      object :=
        { kind := NoteType.Note
          id := noteId
          published := published
          url := noteUrl
          to_ := toList
          cc := cc
          content := self.title ++ "\n---\n\n" ++ self.content } }

/-- The value `Post.into_json` always succeeds with (`Url.parse` is total
on the constructed strings): the pure translation `translate_post` of the
specification.  `post_into_json_eq` proves the correspondence. -/
def translate_post (self : Post) (hostname : String) : Create :=
  { kind := CreateType.Create
    id := hostname ++ "/users/" ++ self.author ++ "/statuses/" ++
      toString self.published.timestamp ++ "/activity"
    published := formatTimestamp self.published
    to_ := [hostname ++ "/users/" ++ self.author ++ "/followers"]
    cc := [publicUrl]
    object :=
      { kind := NoteType.Note
        id := hostname ++ "/users/" ++ self.author ++ "/statuses/" ++
          toString self.published.timestamp
        published := formatTimestamp self.published
        url := hostname ++ "/blog/" ++ slugify self.title
        to_ := [hostname ++ "/users/" ++ self.author ++ "/followers"]
        cc := [publicUrl]
        content := self.title ++ "\n---\n\n" ++ self.content } }

/-- The `Author::into_json` method of `src/main.rs`, translating an
author into a `Person` actor. -/
def Author.into_json (self : Author) (data : Blog) : Except Error Person := do
  let id ← Url.parse (data.hostname ++ "/users/" ++ self.name)
  let inbox ← Url.parse (data.hostname ++ "/users/" ++ self.name ++ "/inbox")
  let outbox ← Url.parse (data.hostname ++ "/users/" ++ self.name ++ "/outbox")
  let following ← Url.parse (data.hostname ++ "/users/" ++ self.name ++ "/following")
  let followers ← Url.parse (data.hostname ++ "/users/" ++ self.name ++ "/followers")
  Except.ok
    { kind := PersonType.Person
      id := id
      inbox := inbox
      outbox := outbox
      following := following
      followers := followers
      preferred_username := self.name
      name := self.display_name }

/-- The value `Author.into_json` always succeeds with: the pure
translation `translate_author` of the specification.
`author_into_json_eq` proves the correspondence. -/
def translate_author (self : Author) (hostname : String) : Person :=
  { kind := PersonType.Person
    id := hostname ++ "/users/" ++ self.name
    inbox := hostname ++ "/users/" ++ self.name ++ "/inbox"
    outbox := hostname ++ "/users/" ++ self.name ++ "/outbox"
    following := hostname ++ "/users/" ++ self.name ++ "/following"
    followers := hostname ++ "/users/" ++ self.name ++ "/followers"
    preferred_username := self.name
    name := self.display_name }

/-- The `http_get_user` handler of `src/main.rs` (the `WithContext` /
`FederationJson` envelope added by the external federation middleware is
out of scope and omitted). -/
def http_get_user (name : String) (data : Blog) : Except Error Person :=
  match data.authors.find? (fun a => a.name == name) with
  | none => Except.error Error.NotFound
  | some user => user.into_json data

/-- The `http_get_outbox` handler of `src/main.rs`: resolve the author
(discarding the value), translate every post whose `author` equals the
requested name in storage order, short-circuiting on the first
translation error, and wrap the results as an `OrderedCollection`. -/
def http_get_outbox (name : String) (data : Blog) :
    Except Error (OrderedCollection Create) :=
  match data.authors.find? (fun a => a.name == name) with
  | none => Except.error Error.NotFound
  | some _user => do
      let posts ← (data.posts.filter (fun p => p.author == name)).mapM
        (fun p => p.into_json data)
      Except.ok
        { kind := OrderedCollectionType.OrderedCollection
          total_items := posts.length
          ordered_items := posts }

/-- Splits a character list at its first `'@'`: the characters before it
and the characters after it, or `none` when no `'@'` occurs. -/
def splitAtSign : List Char → Option (List Char × List Char)
  | [] => none
  | '@' :: rest => some ([], rest)
  | c :: rest =>
      match splitAtSign rest with
      | none => none
      | some (front, back) => some (c :: front, back)

/-- Modelled from the spec: the external federation middleware's
WebFinger helper `extract_webfinger_name`, which "extracts a bare name
from a `resource` string following the `acct:`-style convention" — the
resource must have the shape `acct:{name}@{domain}` with a non-empty
name and exactly the configured domain — and fails on a malformed
resource string.  Its source is not part of this repository; only its
success/failure split matters to the claims. -/
def extract_webfinger_name (resource : String) (domain : String) :
    Except String String :=
  match resource.data with
  | 'a' :: 'c' :: 'c' :: 't' :: ':' :: rest =>
      match splitAtSign rest with
      | some (name, d) =>
          if d = domain.data then
            if name = [] then Except.error "webfinger regex failed to match"
            else Except.ok (String.mk name)
          else Except.error "webfinger regex failed to match"
      | none => Except.error "webfinger regex failed to match"
  | _ => Except.error "webfinger regex failed to match"

/-- Modelled from the spec: the external helper `build_webfinger_response`,
which "binds the original `resource` string to the actor's canonical
`id` URI". -/
structure Webfinger where
  subject : String
  id : Url
deriving DecidableEq

/-- Modelled from the spec: constructing the WebFinger JRD response from
the `(resource, actor-id)` pair (external helper; only the binding of the
two inputs matters here). -/
def build_webfinger_response (resource : String) (id : Url) : Webfinger :=
  { subject := resource, id := id }

/-- The `webfinger` handler of `src/main.rs`.  The `?` on
`extract_webfinger_name` converts the helper's error into
`Error.Internal` through the blanket `From` impl.  `domain` is the
configured federation domain (`FederationConfig::domain`). -/
def webfinger (resource : String) (domain : String) (data : Blog) :
    Except Error Webfinger :=
  match extract_webfinger_name resource domain with
  | Except.error e => Except.error (Error.Internal e)
  | Except.ok name =>
      match data.authors.find? (fun a => a.name == name) with
      | none => Except.error Error.NotFound
      | some user =>
          match user.into_json data with
          | Except.error e => Except.error e
          | Except.ok person => Except.ok (build_webfinger_response resource person.id)

/-- The HTTP status code the `webfinger` endpoint responds with, through
`impl IntoResponse for Error` (a successful `Json` response is 200). -/
def webfingerStatus (resource : String) (domain : String) (data : Blog) : Nat :=
  match webfinger resource domain data with
  | Except.ok _ => 200
  | Except.error e => e.status

/-- The blog constructed in `main` (release configuration), with the
startup instant `Utc::now()` fixed to a representative value; used as
concrete input by the witnesses. -/
def exampleBlog : Blog :=
  { hostname := "https://astavie.dev"
    authors := [{ name := "astavie", display_name := "Astavie", followers := [] }]
    posts := [{ author := "astavie"
                published := { secs := 1700000000, nanos := 0 }
                title := "Initial post"
                content := "Hello, Fediverse!" }] }

/-- A blog whose single author has no posts at all; concrete input for
the empty-outbox witness. -/
def soloBlog : Blog :=
  { hostname := "https://astavie.dev"
    authors := [{ name := "astavie", display_name := "Astavie", followers := [] }]
    posts := [] }

/-- The fallible translator always succeeds, with the pure translation's
value: `Url.parse` is total on the constructed URI strings. -/
theorem post_into_json_eq (p : Post) (data : Blog) :
    p.into_json data = Except.ok (translate_post p data.hostname) :=
  rfl

/-- The fallible actor translator always succeeds, with the pure
translation's value. -/
theorem author_into_json_eq (a : Author) (data : Blog) :
    a.into_json data = Except.ok (translate_author a data.hostname) :=
  rfl

/-- Collecting the results of `Post.into_json` over a list of posts
(the `map`/`collect` step of `http_get_outbox`) never short-circuits and
yields each post's pure translation, in order. -/
theorem mapM_into_json (l : List Post) (data : Blog) :
    l.mapM (fun p => p.into_json data) =
      Except.ok (l.map (fun p => translate_post p data.hostname)) := by
  induction l with
  | nil => rfl
  | cons p l ih =>
      rw [List.mapM_cons, ih]
      rfl

/-- Field bounds of the civil-from-days decomposition on the day range
of timestamps `0 ≤ ts < 253402300800` (1970-01-01 through 9999-12-31):
the year has at most four digits, the month is in `1..12` and the day in
`1..31`. -/
theorem civil_bounds (days : Int) (h0 : 0 ≤ days) (h1 : days ≤ 2932896) :
    0 ≤ (civilFromDays days).1 ∧ (civilFromDays days).1 < 10000 ∧
    1 ≤ (civilFromDays days).2.1 ∧ (civilFromDays days).2.1 ≤ 12 ∧
    1 ≤ (civilFromDays days).2.2 ∧ (civilFromDays days).2.2 ≤ 31 := by
  simp only [civilFromDays]
  split <;> split <;> omega

/-- A `{hostname}/blog/…` URI never coincides with a
`{hostname}/users/…/statuses/…` URI: after the common hostname they
disagree at the second character. -/
theorem blog_users_ne (h s a t : String) :
    h ++ "/blog/" ++ s ≠ h ++ "/users/" ++ a ++ "/statuses/" ++ t := by
  intro heq
  have hd := congrArg String.data heq
  simp only [String.data_append, List.append_assoc] at hd
  have htail := List.append_cancel_left hd
  simp only [List.cons_append] at htail
  obtain ⟨-, htail2⟩ := List.cons.inj htail
  obtain ⟨hbu, -⟩ := List.cons.inj htail2
  exact absurd hbu (by decide)

/-- The post of the blog constructed in `main`, with the startup instant
fixed to a representative value. -/
def examplePost : Post :=
  { author := "astavie"
    published := { secs := 1700000000, nanos := 0 }
    title := "Initial post"
    content := "Hello, Fediverse!" }

/-- Claim C1: for every author name present in the domain model,
`http_get_outbox` succeeds and returns an ordered collection whose
`ordered_items` are exactly the `translate_post` translations of the
posts whose `author` field equals the requested name, in domain-model
storage order, and whose `total_items` equals both the length of
`ordered_items` and the count of matching posts. -/
theorem C1_outbox_items (data : Blog) (name : String)
    (hfound : ∃ a ∈ data.authors, a.name = name) :
    ∃ oc, http_get_outbox name data = Except.ok oc ∧
      oc.ordered_items =
        (data.posts.filter (fun p => p.author == name)).map
          (fun p => translate_post p data.hostname) ∧
      oc.total_items = oc.ordered_items.length ∧
      oc.total_items = (data.posts.filter (fun p => p.author == name)).length := by
  obtain ⟨a, ha, hname⟩ := hfound
  have hsome : (data.authors.find? (fun a => a.name == name)).isSome := by
    rw [List.find?_isSome]
    exact ⟨a, ha, by simp [hname]⟩
  obtain ⟨u, hu⟩ := Option.isSome_iff_exists.mp hsome
  unfold http_get_outbox
  rw [hu, mapM_into_json]
  exact ⟨_, rfl, rfl, rfl, by simp⟩

/-- Claim C1, witnessed on the blog constructed in `main`. -/
theorem C1_witness :
    (∃ a ∈ exampleBlog.authors, a.name = "astavie") ∧
    ∃ oc, http_get_outbox "astavie" exampleBlog = Except.ok oc ∧
      oc.ordered_items =
        (exampleBlog.posts.filter (fun p => p.author == "astavie")).map
          (fun p => translate_post p exampleBlog.hostname) ∧
      oc.total_items = oc.ordered_items.length ∧
      oc.total_items =
        (exampleBlog.posts.filter (fun p => p.author == "astavie")).length :=
  ⟨by decide, C1_outbox_items exampleBlog "astavie" (by decide)⟩

/-- Claim C2: `translate_author` produces a `Person` whose `id` is
`{hostname}/users/{name}`, whose `preferredUsername` is the author's
`name`, whose `name` is the author's `display_name`, and whose `inbox`,
`outbox`, `following` and `followers` are the `id` followed by the
respective well-known suffixes. -/
theorem C2_actor_fields (a : Author) (hostname : String) :
    (translate_author a hostname).kind = PersonType.Person ∧
    (translate_author a hostname).id = hostname ++ "/users/" ++ a.name ∧
    (translate_author a hostname).preferred_username = a.name ∧
    (translate_author a hostname).name = a.display_name ∧
    (translate_author a hostname).inbox = (translate_author a hostname).id ++ "/inbox" ∧
    (translate_author a hostname).outbox = (translate_author a hostname).id ++ "/outbox" ∧
    (translate_author a hostname).following = (translate_author a hostname).id ++ "/following" ∧
    (translate_author a hostname).followers = (translate_author a hostname).id ++ "/followers" :=
  ⟨rfl, rfl, rfl, rfl, rfl, rfl, rfl, rfl⟩

/-- Claim C3: the `Note` content is exactly the post title, the literal
separator `"\n---\n\n"`, then the post body; in particular, for the
title `"Initial post"` and content `"Hello, Fediverse!"` it is exactly
`"Initial post\n---\n\nHello, Fediverse!"`. -/
theorem C3_note_content (p : Post) (hostname : String) :
    (translate_post p hostname).object.content = p.title ++ "\n---\n\n" ++ p.content ∧
    (translate_post examplePost "https://astavie.dev").object.content =
      "Initial post\n---\n\nHello, Fediverse!" :=
  ⟨rfl, by decide⟩

/-- Claim C4: the `Note` url is `{hostname}/blog/{slug}` where the slug
is the lower-cased title with each space replaced by a hyphen, and this
url is always distinct from the `Note` id (the canonical statuses URI). -/
theorem C4_note_url (p : Post) (hostname : String) :
    (translate_post p hostname).object.url =
      hostname ++ "/blog/" ++ p.title.toLower.map (fun c => if c = ' ' then '-' else c) ∧
    (translate_post p hostname).object.url ≠ (translate_post p hostname).object.id :=
  ⟨rfl, blog_users_ne hostname _ p.author _⟩

/-- Claim C5: the `Create` id and the `Note` id both embed the post's
integer timestamp (the publication instant truncated to whole seconds
since the epoch) and differ only by the `/activity` suffix on the
`Create` id. -/
theorem C5_id_round_trip (p : Post) (hostname : String) :
    (translate_post p hostname).object.id =
      hostname ++ "/users/" ++ p.author ++ "/statuses/" ++ toString p.published.timestamp ∧
    (translate_post p hostname).id = (translate_post p hostname).object.id ++ "/activity" ∧
    p.published.timestamp = p.published.secs :=
  ⟨rfl, rfl, rfl⟩

/-- Claim C6: the `Create` addresses `to` the singleton list holding the
author's followers-collection URI and `cc` the singleton list holding
the public-addressing sentinel URI, and the wrapped `Note` carries the
same two lists. -/
theorem C6_addressing (p : Post) (hostname : String) :
    (translate_post p hostname).to_ = [hostname ++ "/users/" ++ p.author ++ "/followers"] ∧
    (translate_post p hostname).cc = [publicUrl] ∧
    (translate_post p hostname).object.to_ = (translate_post p hostname).to_ ∧
    (translate_post p hostname).object.cc = (translate_post p hostname).cc :=
  ⟨rfl, rfl, rfl, rfl⟩

/-- Claim C7: the `published` field on the `Create` and on the wrapped
`Note` is the same string, obtained by formatting the post's timestamp
with the pattern `%Y-%m-%dT%H:%M:%SZ`; it reads only whole seconds (the
nanosecond part never influences it), and for every timestamp from
1970-01-01 through 9999-12-31 it has the exact shape
`YYYY-MM-DDTHH:MM:SSZ`: four-digit year, two-digit month/day/hour/
minute/second fields within calendar bounds, the literal separators,
and the literal `Z` designator with no fractional seconds. -/
theorem C7_published_format (p : Post) (hostname : String)
    (h0 : 0 ≤ p.published.secs) (h1 : p.published.secs < 253402300800) :
    (translate_post p hostname).published = (translate_post p hostname).object.published ∧
    (translate_post p hostname).published = formatTimestamp p.published ∧
    (∀ n : Nat, formatTimestamp { secs := p.published.secs, nanos := n } =
      formatTimestamp p.published) ∧
    ∃ Y Mo D H Mi S : Nat, Y < 10000 ∧ 1 ≤ Mo ∧ Mo ≤ 12 ∧ 1 ≤ D ∧ D ≤ 31 ∧
      H < 24 ∧ Mi < 60 ∧ S < 60 ∧
      formatTimestamp p.published =
        four Y ++ "-" ++ two Mo ++ "-" ++ two D ++ "T" ++
          two H ++ ":" ++ two Mi ++ ":" ++ two S ++ "Z" := by
  refine ⟨rfl, rfl, fun n => rfl, ?_⟩
  have hdays0 : 0 ≤ p.published.secs / 86400 := by omega
  have hdays1 : p.published.secs / 86400 ≤ 2932896 := by omega
  have hc := civil_bounds (p.published.secs / 86400) hdays0 hdays1
  have hsod : (p.published.secs % 86400).toNat < 86400 := by omega
  exact ⟨(civilFromDays (p.published.secs / 86400)).1.toNat,
    (civilFromDays (p.published.secs / 86400)).2.1,
    (civilFromDays (p.published.secs / 86400)).2.2,
    (p.published.secs % 86400).toNat / 3600,
    (p.published.secs % 86400).toNat % 3600 / 60,
    (p.published.secs % 86400).toNat % 60,
    by omega, by omega, by omega, by omega, by omega,
    by omega, by omega, by omega, rfl⟩

/-- Claim C7, witnessed on the representative post of `main`'s blog. -/
theorem C7_witness :
    (translate_post examplePost "https://astavie.dev").published =
      (translate_post examplePost "https://astavie.dev").object.published ∧
    (translate_post examplePost "https://astavie.dev").published =
      formatTimestamp examplePost.published ∧
    (∀ n : Nat, formatTimestamp { secs := examplePost.published.secs, nanos := n } =
      formatTimestamp examplePost.published) ∧
    ∃ Y Mo D H Mi S : Nat, Y < 10000 ∧ 1 ≤ Mo ∧ Mo ≤ 12 ∧ 1 ≤ D ∧ D ≤ 31 ∧
      H < 24 ∧ Mi < 60 ∧ S < 60 ∧
      formatTimestamp examplePost.published =
        four Y ++ "-" ++ two Mo ++ "-" ++ two D ++ "T" ++
          two H ++ ":" ++ two Mi ++ ":" ++ two S ++ "Z" :=
  C7_published_format examplePost "https://astavie.dev" (by decide) (by decide)

/-- Claim C8: for every author name not present in the domain model,
`http_get_user` and `http_get_outbox` return `NotFound`, and so does
`webfinger` whenever the name its helper extracts from the resource
string is that missing name; none of them returns `Internal`. -/
theorem C8_unknown_not_found (data : Blog) (name domain resource : String)
    (hmiss : ∀ a ∈ data.authors, a.name ≠ name) :
    http_get_user name data = Except.error Error.NotFound ∧
    http_get_outbox name data = Except.error Error.NotFound ∧
    (extract_webfinger_name resource domain = Except.ok name →
      webfinger resource domain data = Except.error Error.NotFound) := by
  have hfind : data.authors.find? (fun a => a.name == name) = none := by
    rw [List.find?_eq_none]
    intro x hx
    simpa using hmiss x hx
  refine ⟨?_, ?_, fun hex => ?_⟩
  · unfold http_get_user
    rw [hfind]
  · unfold http_get_outbox
    rw [hfind]
  · unfold webfinger
    rw [hex]
    simp only [hfind]

/-- Claim C8, witnessed at the unknown name `"nobody"`. -/
theorem C8_witness :
    (∀ a ∈ exampleBlog.authors, a.name ≠ "nobody") ∧
    (http_get_user "nobody" exampleBlog = Except.error Error.NotFound ∧
     http_get_outbox "nobody" exampleBlog = Except.error Error.NotFound ∧
     (extract_webfinger_name "acct:nobody@astavie.dev" "astavie.dev" = Except.ok "nobody" →
       webfinger "acct:nobody@astavie.dev" "astavie.dev" exampleBlog =
         Except.error Error.NotFound)) :=
  ⟨by decide, C8_unknown_not_found exampleBlog "nobody" "astavie.dev"
    "acct:nobody@astavie.dev" (by decide)⟩

/-- Claim C9, counterexample: on the malformed resource string
`"malformed"` (name extraction fails) the `webfinger` endpoint responds
with status 500, so it responds with neither 404 nor 400 as the claim
states. -/
theorem C9_counterexample :
    extract_webfinger_name "malformed" "astavie.dev" =
      Except.error "webfinger regex failed to match" ∧
    ¬ (webfingerStatus "malformed" "astavie.dev" exampleBlog = 404 ∨
       webfingerStatus "malformed" "astavie.dev" exampleBlog = 400) := by
  exact ⟨rfl, by decide⟩

/-- Claim C9 as amended: for every request whose resource string is
malformed (name extraction fails), the `webfinger` handler returns the
extraction failure converted to `Error.Internal` by the blanket `From`
impl, and therefore responds with status 500, not 404 or 400. -/
theorem C9_malformed_is_internal (resource domain : String) (data : Blog) (e : String)
    (hmal : extract_webfinger_name resource domain = Except.error e) :
    webfinger resource domain data = Except.error (Error.Internal e) ∧
    webfingerStatus resource domain data = 500 := by
  have hw : webfinger resource domain data = Except.error (Error.Internal e) := by
    unfold webfinger
    rw [hmal]
  refine ⟨hw, ?_⟩
  unfold webfingerStatus
  rw [hw]
  rfl

/-- Claim C9 (amended), witnessed at the malformed resource `"malformed"`. -/
theorem C9_witness :
    extract_webfinger_name "malformed" "astavie.dev" =
      Except.error "webfinger regex failed to match" ∧
    (webfinger "malformed" "astavie.dev" exampleBlog =
      Except.error (Error.Internal "webfinger regex failed to match") ∧
     webfingerStatus "malformed" "astavie.dev" exampleBlog = 500) :=
  ⟨rfl, C9_malformed_is_internal "malformed" "astavie.dev" exampleBlog
    "webfinger regex failed to match" rfl⟩

/-- Claim C10: an author that exists but has no posts still gets a
successful outbox response — an `OrderedCollection` with `total_items`
`0` and no `ordered_items` — rather than `NotFound` or `Internal`;
author existence, not post existence, decides the not-found condition. -/
theorem C10_empty_outbox (data : Blog) (name : String)
    (hfound : ∃ a ∈ data.authors, a.name = name)
    (hnoposts : ∀ p ∈ data.posts, p.author ≠ name) :
    http_get_outbox name data =
      Except.ok { kind := OrderedCollectionType.OrderedCollection
                  total_items := 0
                  ordered_items := [] } := by
  obtain ⟨a, ha, hname⟩ := hfound
  have hsome : (data.authors.find? (fun a => a.name == name)).isSome := by
    rw [List.find?_isSome]
    exact ⟨a, ha, by simp [hname]⟩
  obtain ⟨u, hu⟩ := Option.isSome_iff_exists.mp hsome
  have hfilter : data.posts.filter (fun p => p.author == name) = [] := by
    rw [List.filter_eq_nil_iff]
    intro p hp
    simpa using hnoposts p hp
  unfold http_get_outbox
  rw [hu, hfilter, mapM_into_json]
  rfl

/-- Claim C10, witnessed on a blog whose sole author has no posts. -/
theorem C10_witness :
    (∃ a ∈ soloBlog.authors, a.name = "astavie") ∧
    (∀ p ∈ soloBlog.posts, p.author ≠ "astavie") ∧
    http_get_outbox "astavie" soloBlog =
      Except.ok { kind := OrderedCollectionType.OrderedCollection
                  total_items := 0
                  ordered_items := [] } :=
  ⟨by decide, by decide, C10_empty_outbox soloBlog "astavie" (by decide) (by decide)⟩
